import Mathlib

/-!
# kube-port-forward: a verification development

A shallow embedding of `main.go` (package `kube_port_forward`): the request
record, the dial handle and forward spec built by `PortForwardAPod`, and the
interplay of the waiter and the background task of `WaitForForwarding`.

Go strings are Lean strings; Go's `error` interface is `Option Error`
(`none` is `nil`); Go's `int` is `Int`.  The functions of `client-go` that the
program calls (`spdy.RoundTripperFor`, `portforward.New`, `ForwardPorts`) are
not part of the program: they are the fields of a record `Lib` that every
definition takes as an argument.
-/

namespace KubePortForward

/-! ## Go library functions on strings -/

/-- Go `strings.TrimLeft(s, cutset)`: `s` without its leading characters that
occur in `cutset`.  The three loops of the library (`trimLeftByte`,
`trimLeftASCII`, `trimLeftUnicode`) drop characters from the front while they
belong to the cutset; on the ASCII cutset of this program the byte loop and the
character loop agree, since no byte of a multi-byte character is ASCII. -/
def TrimLeft (s cutset : String) : String :=
  if s = "" ∨ cutset = "" then s
  else ⟨s.data.dropWhile (fun c => cutset.data.contains c)⟩

/-- The digit `'0' + d` that `fmt` writes for a value `d < 10`. -/
def digitByte (d : Nat) : Char := Char.ofNat (48 + d)

/-- The base-10 loop of `fmt.fmtInteger`: while `u >= 10` the digit
`u - (u/10)*10` is written in front of what is already in the buffer and `u`
becomes `u / 10`; the last digit is `u` itself. -/
def fmtUint (u : Nat) (buf : List Char) : List Char :=
  if h : 10 ≤ u then fmtUint (u / 10) (digitByte (u - (u / 10) * 10) :: buf)
  else digitByte u :: buf
termination_by u
decreasing_by omega

/-- The verb `%d` of `fmt.Sprintf` on an `int`: the decimal digits of the
absolute value, after a minus sign when the value is negative. -/
def fmtInt (x : Int) : List Char :=
  if x < 0 then '-' :: fmtUint (-x).toNat [] else fmtUint x.toNat []

/-- The call `fmt.Sprintf("%d:%d", l, r)`. -/
def sprintfPorts (l r : Int) : String := ⟨fmtInt l ++ ':' :: fmtInt r⟩

/-- The call `fmt.Sprintf("/api/v1/namespaces/%s/pods/%s/portforward", ns, pod)`:
the verb `%s` on a string writes the string unchanged. -/
def sprintfPath (ns pod : String) : String :=
  "/api/v1/namespaces/" ++ ns ++ "/pods/" ++ pod ++ "/portforward"

/-! ## Data model -/

/-- A non-nil Go `error`; `Error()` returns `msg`. -/
structure Error where
  msg : String
deriving DecidableEq, Repr

/-- The part of `rest.Config` that the program reads. -/
structure RestConfig where
  Host : String
deriving DecidableEq, Repr

/-- The part of `metav1.ObjectMeta` that the program reads. -/
structure ObjectMeta where
  Name : String
  Namespace : String
deriving DecidableEq, Repr

/-- The part of `v1.Pod` that the program reads. -/
structure Pod where
  ObjectMeta : ObjectMeta
deriving DecidableEq, Repr

/-- A Go channel of `struct{}` values: its capacity, the number of values in
its buffer, and whether it has been closed. -/
structure Chan where
  cap : Nat
  buf : Nat
  closed : Bool
deriving DecidableEq, Repr

/-- What a channel operation does when no other goroutine is at the channel:
it completes and leaves the channel in a new state, it blocks, or it panics. -/
inductive ChanResult where
  | done (c : Chan)
  | blocks
  | panics
deriving DecidableEq, Repr

/-- The call `make(chan struct{}, cap)`. -/
def makeChan (cap : Nat) : Chan := ⟨cap, 0, false⟩

/-- The statement `c <- struct{}{}`: a send on a closed channel panics, a send
with room in the buffer adds the value, any other send blocks. -/
def Chan.send (c : Chan) : ChanResult :=
  if c.closed then .panics
  else if c.buf < c.cap then .done { c with buf := c.buf + 1 }
  else .blocks

/-- The statement `close(c)`: closing a closed channel panics. -/
def Chan.close (c : Chan) : ChanResult :=
  if c.closed then .panics else .done { c with closed := true }

/-- The expression `<-c`: a buffered value is taken, a closed and empty channel
yields the zero value without blocking, an open and empty channel blocks. -/
def Chan.recv (c : Chan) : ChanResult :=
  if 0 < c.buf then .done { c with buf := c.buf - 1 }
  else if c.closed then .done c
  else .blocks

/-- The direction of a channel type: `chan T` allows every operation,
`<-chan T` allows the receive only. -/
inductive ChanDir where
  | both
  | recvOnly
deriving DecidableEq, Repr

/-- A channel held through a variable or field whose type has the direction
`dir`. -/
structure ChanEnd (dir : ChanDir) where
  chan : Chan
deriving DecidableEq, Repr

/-- The statement `c <- struct{}{}` on a channel held with direction `dir`:
the compiler refuses a send on a receive-only channel, so there is no such
statement (`none`); on a `chan T` it is the send of the channel. -/
def ChanEnd.send {dir : ChanDir} (c : ChanEnd dir) : Option ChanResult :=
  match dir with
  | .both => some c.chan.send
  | .recvOnly => none

/-- The statement `close(c)` on a channel held with direction `dir`: the
compiler refuses the close of a receive-only channel (`none`). -/
def ChanEnd.close {dir : ChanDir} (c : ChanEnd dir) : Option ChanResult :=
  match dir with
  | .both => some c.chan.close
  | .recvOnly => none

/-- The expression `<-c` on a channel held with direction `dir`: both
directions of the program allow it. -/
def ChanEnd.recv {dir : ChanDir} (c : ChanEnd dir) : ChanResult :=
  c.chan.recv

/-- The record `PortForwardAPodRequest`, without its streams, which are only
passed on: `StopCh <-chan struct{}` is receive-only, `ReadyCh chan struct{}`
is not.  A channel field holds the state of the channel when the record is
built. -/
structure PortForwardAPodRequest where
  RestConfig : RestConfig
  Pod : Pod
  LocalPort : Int
  PodPort : Int
  StopCh : ChanEnd .recvOnly
  ReadyCh : ChanEnd .both
deriving DecidableEq, Repr

/-- The function `NewRequest`; `buildConfigFromFlags` stands for the function of
that name, which only calls `clientcmd`.  The two ports are not set, so they
are zero.  The channel made for `StopCh` is stored in that receive-only field
and nowhere else. -/
def NewRequest (buildConfigFromFlags : String → String → Except Error RestConfig)
    (kubeconfig context ns podName : String) : Except Error PortForwardAPodRequest :=
  match buildConfigFromFlags context kubeconfig with
  | .error err => .error err
  | .ok config =>
    .ok { RestConfig := config
          Pod := { ObjectMeta := { Name := podName, Namespace := ns } }
          LocalPort := 0
          PodPort := 0
          StopCh := ⟨makeChan 1⟩
          ReadyCh := ⟨makeChan 0⟩ }

/-- The fields of `url.URL` that the program sets. -/
structure URL where
  Scheme : String
  Host : String
  Path : String
deriving DecidableEq, Repr

/-- A handle on the round tripper returned by `spdy.RoundTripperFor`. -/
structure Transport where
  id : Nat
deriving DecidableEq, Repr

/-- A handle on the upgrader returned by `spdy.RoundTripperFor`. -/
structure Upgrader where
  id : Nat
deriving DecidableEq, Repr

/-- The value `&http.Client{Transport: transport}`. -/
structure Client where
  Transport : Transport
deriving DecidableEq, Repr

/-- The dial handle returned by `spdy.NewDialer`, which stores its four
arguments. -/
structure Dialer where
  upgrader : Upgrader
  client : Client
  method : String
  url : URL
deriving DecidableEq, Repr

/-- The call `spdy.NewDialer(upgrader, client, method, url)`. -/
def NewDialer (upgrader : Upgrader) (client : Client) (method : String) (url : URL) : Dialer :=
  ⟨upgrader, client, method, url⟩

/-- The constant `http.MethodPost`. -/
def MethodPost : String := "POST"

/-- A handle on the forwarder returned by `portforward.New`. -/
structure PortForwarder where
  id : Nat
deriving DecidableEq, Repr

/-- How a call of `ForwardPorts` ends: it returns an `error` (possibly nil), or
it stays in its forwarding loop. -/
inductive FwdResult where
  | returns (err : Option Error)
  | blocks
deriving DecidableEq, Repr

/-- What a call of `ForwardPorts` does to the program: whether it closes the
ready channel it was given, and how it ends. -/
structure FwdBehaviour where
  closesReady : Bool
  result : FwdResult
deriving DecidableEq, Repr

/-- The three functions of `client-go` that `PortForwardAPod` calls. -/
structure Lib where
  RoundTripperFor : RestConfig → Except Error (Transport × Upgrader)
  New : Dialer → List String → Except Error PortForwarder
  ForwardPorts : PortForwarder → FwdBehaviour

/-- A library call made by `PortForwardAPod`, with its arguments. -/
inductive Call where
  | RoundTripperFor (config : RestConfig)
  | NewDialer (dialer : Dialer)
  | New (dialer : Dialer) (ports : List String)
  | ForwardPorts (fw : PortForwarder)
deriving DecidableEq, Repr

/-- One execution of `PortForwardAPod`: the library calls in the order they are
made, whether the ready channel is closed during it, and how it ends. -/
structure Outcome where
  calls : List Call
  closesReady : Bool
  result : FwdResult
deriving DecidableEq, Repr

/-- The function `PortForwardAPod`. -/
def PortForwardAPod (lib : Lib) (req : PortForwardAPodRequest) : Outcome :=
  let path := sprintfPath req.Pod.ObjectMeta.Namespace req.Pod.ObjectMeta.Name
  let hostIP := TrimLeft req.RestConfig.Host "htps:/"
  match lib.RoundTripperFor req.RestConfig with
  | .error err => ⟨[.RoundTripperFor req.RestConfig], false, .returns (some err)⟩
  | .ok (transport, upgrader) =>
    let dialer := NewDialer upgrader ⟨transport⟩ MethodPost ⟨"https", hostIP, path⟩
    let ports := [sprintfPorts req.LocalPort req.PodPort]
    match lib.New dialer ports with
    | .error err =>
      ⟨[.RoundTripperFor req.RestConfig, .NewDialer dialer, .New dialer ports], false,
        .returns (some err)⟩
    | .ok fw =>
      ⟨[.RoundTripperFor req.RestConfig, .NewDialer dialer, .New dialer ports, .ForwardPorts fw],
        (lib.ForwardPorts fw).closesReady, (lib.ForwardPorts fw).result⟩

/-- The dial handle of line 99, for the transport and upgrader that
`spdy.RoundTripperFor` returned. -/
def dialerFor (req : PortForwardAPodRequest) (transport : Transport) (upgrader : Upgrader) :
    Dialer :=
  NewDialer upgrader ⟨transport⟩ MethodPost
    ⟨"https", TrimLeft req.RestConfig.Host "htps:/",
      sprintfPath req.Pod.ObjectMeta.Namespace req.Pod.ObjectMeta.Name⟩

/-- The list of forward specs of line 100. -/
def portsFor (req : PortForwardAPodRequest) : List String :=
  [sprintfPorts req.LocalPort req.PodPort]

/-! ## The run of `WaitForForwarding` -/

/-- Where the goroutine started by `WaitForForwarding` stands. -/
inductive TaskPc where
  /-- In `PortForwardAPod`, which has not closed the ready channel. -/
  | calling
  /-- In `ForwardPorts`, which has closed the ready channel. -/
  | forwarding
  /-- At `failureCh <- err`, waiting for a receiver: the channel has no buffer. -/
  | sending (err : Error)
  /-- At `panic(err.Error())`, after the send. -/
  | panicking (err : Error)
  /-- The panic has ended the process. -/
  | crashed (msg : String)
  /-- The goroutine has returned, `err` being nil. -/
  | finished
deriving DecidableEq, Repr

/-- Where the caller of `WaitForForwarding` stands: in the `select`, or
returned. -/
inductive WaiterPc where
  | selecting
  | returned (err : Option Error)
deriving DecidableEq, Repr

/-- The state of a run of `WaitForForwarding`: the two threads, whether the
ready channel is closed, and the errors received from the failure channel so
far. -/
structure State where
  task : TaskPc
  waiter : WaiterPc
  readyClosed : Bool
  delivered : List Error
deriving DecidableEq, Repr

/-- The steps of a run. -/
inductive Label where
  /-- The library closes the ready channel. -/
  | closeReady
  /-- The call `PortForwardAPod(req)` returns `err`. -/
  | ret (err : Option Error)
  /-- The send `failureCh <- err` meets the case `err := <-failureCh`. -/
  | recvFailure (err : Error)
  /-- The `select` takes the case `<-readyCh`. -/
  | recvReady
  /-- The statement `panic(err.Error())`. -/
  | panic (msg : String)
deriving DecidableEq, Repr

/-- The state in which `WaitForForwarding` has started its goroutine and is at
its `select`, for a request whose ready channel is open, as `NewRequest` leaves
it. -/
def State.init : State := ⟨.calling, .selecting, false, []⟩

/-- The goroutine when `PortForwardAPod` ends: `if err != nil` leads to the
send, a nil error ends the goroutine, and a call that does not return leaves it
where it is. -/
def afterCall (o : Outcome) (s : State) : List (Label × State) :=
  match o.result with
  | .returns (some err) => [(.ret (some err), { s with task := .sending err })]
  | .returns none => [(.ret none, { s with task := .finished })]
  | .blocks => []

/-- The steps of the goroutine `func() { err := PortForwardAPod(req); if err !=
nil { failureCh <- err; panic(err.Error()) } }()`. -/
def taskSteps (o : Outcome) (s : State) : List (Label × State) :=
  match s.task with
  | .calling =>
    if o.closesReady then [(.closeReady, { s with task := .forwarding, readyClosed := true })]
    else afterCall o s
  | .forwarding => afterCall o s
  | .sending err =>
    match s.waiter with
    | .selecting =>
      [(.recvFailure err, { s with task := .panicking err, waiter := .returned (some err),
                                   delivered := s.delivered ++ [err] })]
    | .returned _ => []
  | .panicking err => [(.panic err.msg, { s with task := .crashed err.msg })]
  | .crashed _ => []
  | .finished => []

/-- The step of the caller that does not involve the goroutine: the case
`<-readyCh` of the `select`, which can be taken once the channel is closed.
(The case `err := <-failureCh` is the step `recvFailure` of `taskSteps`.) -/
def waiterSteps (s : State) : List (Label × State) :=
  match s.task, s.waiter with
  | .crashed _, _ => []
  | _, .selecting =>
    if s.readyClosed then [(.recvReady, { s with waiter := .returned none })] else []
  | _, .returned _ => []

/-- All steps possible in a state of the run of `WaitForForwarding(req)`. -/
def steps (lib : Lib) (req : PortForwardAPodRequest) (s : State) : List (Label × State) :=
  taskSteps (PortForwardAPod lib req) s ++ waiterSteps s

/-- The runs of `WaitForForwarding(req)`: the steps taken so far, in order, and
the state reached. -/
inductive Run (lib : Lib) (req : PortForwardAPodRequest) : List Label → State → Prop where
  | init : Run lib req [] State.init
  | step {trace : List Label} {s : State} {l : Label} {s' : State} :
      Run lib req trace s → (l, s') ∈ steps lib req s → Run lib req (trace ++ [l]) s'

/-- The steps of a trace in which the `select` of the caller receives. -/
def observed (trace : List Label) : List Label :=
  trace.filter (fun l => match l with
    | .recvReady => true
    | .recvFailure _ => true
    | _ => false)

/-- The steps before the return of `PortForwardAPod`: the closing of the ready
channel, when the call does it. -/
def readyPrefix (o : Outcome) : List Label :=
  if o.closesReady then [.closeReady] else []

/-- The runs of `WaitForForwarding` listed by the position of the goroutine:
for each position, the traces that lead to it and the rest of the state. -/
def Inv (o : Outcome) (trace : List Label) (s : State) : Prop :=
  match s.task with
  | .calling =>
    trace = [] ∧ s.waiter = .selecting ∧ s.readyClosed = false ∧ s.delivered = []
  | .forwarding =>
    o.closesReady = true ∧ s.readyClosed = true ∧ s.delivered = [] ∧
      ((trace = [.closeReady] ∧ s.waiter = .selecting) ∨
        (trace = [.closeReady, .recvReady] ∧ s.waiter = .returned none))
  | .sending err =>
    o.result = .returns (some err) ∧ s.readyClosed = o.closesReady ∧ s.delivered = [] ∧
      ((trace = readyPrefix o ++ [.ret (some err)] ∧ s.waiter = .selecting) ∨
        (o.closesReady = true ∧ s.waiter = .returned none ∧
          (trace = [.closeReady, .recvReady, .ret (some err)] ∨
            trace = [.closeReady, .ret (some err), .recvReady])))
  | .panicking err =>
    o.result = .returns (some err) ∧ s.readyClosed = o.closesReady ∧ s.delivered = [err] ∧
      trace = readyPrefix o ++ [.ret (some err), .recvFailure err] ∧
      s.waiter = .returned (some err)
  | .crashed msg =>
    ∃ err, msg = err.msg ∧
      o.result = .returns (some err) ∧ s.readyClosed = o.closesReady ∧ s.delivered = [err] ∧
      trace = readyPrefix o ++ [.ret (some err), .recvFailure err, .panic err.msg] ∧
      s.waiter = .returned (some err)
  | .finished =>
    o.result = .returns none ∧ s.readyClosed = o.closesReady ∧ s.delivered = [] ∧
      ((trace = readyPrefix o ++ [.ret none] ∧ s.waiter = .selecting) ∨
        (o.closesReady = true ∧ s.waiter = .returned none ∧
          (trace = [.closeReady, .recvReady, .ret none] ∨
            trace = [.closeReady, .ret none, .recvReady])))

/-! ## Sample libraries and requests -/

/-- A library whose calls succeed: `ForwardPorts` closes the ready channel and
stays in its loop. -/
def libForwarding : Lib :=
  ⟨fun _ => .ok (⟨0⟩, ⟨0⟩), fun _ _ => .ok ⟨0⟩, fun _ => ⟨true, .blocks⟩⟩

/-- A library whose `ForwardPorts` closes the ready channel and returns nil
when it is stopped. -/
def libStopped : Lib :=
  ⟨fun _ => .ok (⟨0⟩, ⟨0⟩), fun _ _ => .ok ⟨0⟩, fun _ => ⟨true, .returns none⟩⟩

/-- A library whose `ForwardPorts` closes the ready channel and later returns
an error, the connection being lost. -/
def libLost : Lib :=
  ⟨fun _ => .ok (⟨0⟩, ⟨0⟩), fun _ _ => .ok ⟨0⟩,
    fun _ => ⟨true, .returns (some ⟨"lost connection to pod"⟩)⟩⟩

/-- A library whose `ForwardPorts` fails at the dial, the ready channel left
open. -/
def libDialError : Lib :=
  ⟨fun _ => .ok (⟨0⟩, ⟨0⟩), fun _ _ => .ok ⟨0⟩,
    fun _ => ⟨false, .returns (some ⟨"error upgrading connection: 403"⟩)⟩⟩

/-- A library whose `spdy.RoundTripperFor` fails. -/
def libNoTransport : Lib :=
  ⟨fun _ => .error ⟨"unable to load TLS material"⟩, fun _ _ => .ok ⟨0⟩,
    fun _ => ⟨true, .blocks⟩⟩

/-- A `buildConfigFromFlags` that finds the configuration of a cluster. -/
def configOk : String → String → Except Error RestConfig :=
  fun _ _ => .ok ⟨"https://10.0.0.1:6443"⟩

/-- The request of the end-to-end scenario: pod `web-0` of namespace `default`,
local port 8080 to port 80, on a cluster given by its address. -/
def reqWeb : PortForwardAPodRequest :=
  { RestConfig := ⟨"https://10.0.0.1:6443"⟩
    Pod := ⟨⟨"web-0", "default"⟩⟩
    LocalPort := 8080
    PodPort := 80
    StopCh := ⟨makeChan 1⟩
    ReadyCh := ⟨makeChan 0⟩ }

/-- The same request on a cluster given by a host name. -/
def reqNamed : PortForwardAPodRequest :=
  { reqWeb with RestConfig := ⟨"https://test.example.com"⟩ }

/-- The same request with an empty namespace and an empty pod name. -/
def reqUnnamed : PortForwardAPodRequest :=
  { reqWeb with Pod := ⟨⟨"", ""⟩⟩ }

/-! ## Facts about the string functions -/

theorem TrimLeft_data (s cutset : String) (hc : cutset ≠ "") :
    (TrimLeft s cutset).data = s.data.dropWhile (fun c => cutset.data.contains c) := by
  unfold TrimLeft
  by_cases hs : s = ""
  · subst hs; simp
  · simp [hs, hc]

theorem TrimLeft_append (p a cutset : String) (hc : cutset ≠ "")
    (hp : ∀ c ∈ p.data, c ∈ cutset.data)
    (ha : ∀ c rest, a.data = c :: rest → c ∉ cutset.data) :
    TrimLeft (p ++ a) cutset = a := by
  apply String.ext
  rw [TrimLeft_data _ _ hc, String.data_append]
  have h1 : ∀ l : List Char, (∀ c ∈ l, c ∈ cutset.data) →
      (l ++ a.data).dropWhile (fun c => cutset.data.contains c) = a.data := by
    intro l
    induction l with
    | nil =>
      intro _
      cases hd : a.data with
      | nil => simp
      | cons c rest =>
        have := ha c rest hd
        simp [List.dropWhile, this]
    | cons x xs ih =>
      intro hl
      have hx : x ∈ cutset.data := hl x (List.mem_cons_self _ _)
      have hx2 : cutset.data.contains x = true := by simpa using hx
      rw [List.cons_append, List.dropWhile_cons, if_pos hx2]
      exact ih (fun c hc => hl c (List.mem_cons_of_mem _ hc))
  exact h1 p.data hp

theorem TrimLeft_split (s cutset : String) (hc : cutset ≠ "") :
    s = ⟨s.data.takeWhile (fun c => cutset.data.contains c)⟩ ++ TrimLeft s cutset := by
  apply String.ext
  rw [String.data_append, TrimLeft_data _ _ hc]
  simp [List.takeWhile_append_dropWhile]

theorem TrimLeft_head (s cutset : String) (hc : cutset ≠ "") (c : Char) (rest : List Char)
    (h : (TrimLeft s cutset).data = c :: rest) : c ∉ cutset.data := by
  rw [TrimLeft_data _ _ hc] at h
  have := List.head_dropWhile_not (fun c => cutset.data.contains c) s.data
  have h2 := this (by rw [h]; simp)
  simp only [h, List.head_cons] at h2
  simpa using h2


theorem digitByte_toNat (d : Nat) (h : d < 10) : (digitByte d).toNat = 48 + d := by
  interval_cases d <;> rfl

theorem digitByte_inj (d e : Nat) (hd : d < 10) (he : e < 10)
    (h : digitByte d = digitByte e) : d = e := by
  have := congrArg Char.toNat h
  rw [digitByte_toNat d hd, digitByte_toNat e he] at this
  omega

theorem fmtUint_lt (u : Nat) (buf : List Char) (h : u < 10) :
    fmtUint u buf = digitByte u :: buf := by
  rw [fmtUint, dif_neg (by omega)]

theorem fmtUint_ge (u : Nat) (buf : List Char) (h : 10 ≤ u) :
    fmtUint u buf = fmtUint (u / 10) (digitByte (u % 10) :: buf) := by
  rw [fmtUint, dif_pos h]
  have : u - u / 10 * 10 = u % 10 := by omega
  rw [this]

theorem fmtUint_buf (u : Nat) : ∀ buf : List Char, fmtUint u buf = fmtUint u [] ++ buf := by
  induction u using Nat.strong_induction_on with
  | _ u ih =>
    intro buf
    by_cases h : 10 ≤ u
    · rw [fmtUint_ge u buf h, fmtUint_ge u [] h, ih (u / 10) (by omega) (_ :: buf),
        ih (u / 10) (by omega) [_]]
      simp
    · rw [fmtUint_lt u buf (by omega), fmtUint_lt u [] (by omega)]
      simp

theorem fmtUint_snoc (u : Nat) (h : 10 ≤ u) :
    fmtUint u [] = fmtUint (u / 10) [] ++ [digitByte (u % 10)] := by
  rw [fmtUint_ge u [] h, fmtUint_buf]

theorem fmtUint_ne_nil (u : Nat) : fmtUint u [] ≠ [] := by
  by_cases h : 10 ≤ u
  · rw [fmtUint_snoc u h]; simp
  · rw [fmtUint_lt u [] (by omega)]; simp

theorem fmtUint_digits (u : Nat) : ∀ c ∈ fmtUint u [], ∃ d, d < 10 ∧ c = digitByte d := by
  induction u using Nat.strong_induction_on with
  | _ u ih =>
    intro c hc
    by_cases h : 10 ≤ u
    · rw [fmtUint_snoc u h, List.mem_append] at hc
      rcases hc with hc | hc
      · exact ih (u / 10) (by omega) c hc
      · exact ⟨u % 10, by omega, by simpa using hc⟩
    · rw [fmtUint_lt u [] (by omega)] at hc
      exact ⟨u, by omega, by simpa using hc⟩

theorem fmtUint_inj (u : Nat) : ∀ v : Nat, fmtUint u [] = fmtUint v [] → u = v := by
  induction u using Nat.strong_induction_on with
  | _ u ih =>
    intro v huv
    by_cases hu : 10 ≤ u <;> by_cases hv : 10 ≤ v
    · rw [fmtUint_snoc u hu, fmtUint_snoc v hv] at huv
      obtain ⟨h1, h2⟩ := List.append_inj' huv rfl
      have e1 := ih (u / 10) (by omega) (v / 10) h1
      have e2 := digitByte_inj (u % 10) (v % 10) (by omega) (by omega) (by simpa using h2)
      omega
    · rw [fmtUint_snoc u hu, fmtUint_lt v [] (by omega)] at huv
      have := congrArg List.length huv
      have hne := fmtUint_ne_nil (u / 10)
      have : (fmtUint (u / 10) []).length = 0 := by simpa using this
      exact absurd (List.length_eq_zero.mp this) hne
    · rw [fmtUint_snoc v hv, fmtUint_lt u [] (by omega)] at huv
      have := congrArg List.length huv
      have hne := fmtUint_ne_nil (v / 10)
      have : (fmtUint (v / 10) []).length = 0 := by simpa using this.symm
      exact absurd (List.length_eq_zero.mp this) hne
    · rw [fmtUint_lt u [] (by omega), fmtUint_lt v [] (by omega)] at huv
      exact digitByte_inj _ _ (by omega) (by omega) (by simpa using huv)

theorem digitByte_ne_colon (d : Nat) (h : d < 10) : digitByte d ≠ ':' := by
  intro e
  have := congrArg Char.toNat e
  rw [digitByte_toNat d h] at this
  have h2 : (':' : Char).toNat = 58 := rfl
  omega

theorem digitByte_ne_minus (d : Nat) (h : d < 10) : digitByte d ≠ '-' := by
  intro e
  have := congrArg Char.toNat e
  rw [digitByte_toNat d h] at this
  have h2 : ('-' : Char).toNat = 45 := rfl
  omega

theorem fmtInt_no_colon (x : Int) : ':' ∉ fmtInt x := by
  intro hc
  unfold fmtInt at hc
  split at hc
  · rcases List.mem_cons.mp hc with h | h
    · exact absurd h (by decide)
    · obtain ⟨d, hd, e⟩ := fmtUint_digits _ _ h
      exact digitByte_ne_colon d hd e.symm
  · obtain ⟨d, hd, e⟩ := fmtUint_digits _ _ hc
    exact digitByte_ne_colon d hd e.symm

theorem fmtUint_head_ne_minus (u : Nat) (rest : List Char) : fmtUint u [] ≠ '-' :: rest := by
  intro h
  obtain ⟨d, hd, e⟩ := fmtUint_digits u '-' (by rw [h]; simp)
  exact digitByte_ne_minus d hd e.symm

theorem fmtInt_inj (x y : Int) (h : fmtInt x = fmtInt y) : x = y := by
  unfold fmtInt at h
  by_cases hx : x < 0 <;> by_cases hy : y < 0
  · rw [if_pos hx, if_pos hy] at h
    have := fmtUint_inj _ _ (List.cons.inj h).2
    omega
  · rw [if_pos hx, if_neg hy] at h
    exact absurd h.symm (fmtUint_head_ne_minus _ _)
  · rw [if_neg hx, if_pos hy] at h
    exact absurd h (fmtUint_head_ne_minus _ _)
  · rw [if_neg hx, if_neg hy] at h
    have := fmtUint_inj _ _ h
    omega

theorem colon_split (a : List Char) : ∀ (c b d : List Char), ':' ∉ a → ':' ∉ c →
    a ++ ':' :: b = c ++ ':' :: d → a = c ∧ b = d := by
  induction a with
  | nil =>
    intro c b d _ hc h
    cases c with
    | nil => simpa using h
    | cons y ys =>
      simp only [List.nil_append, List.cons_append, List.cons.injEq] at h
      exact absurd (h.1 ▸ List.mem_cons_self _ _) hc
  | cons x xs ih =>
    intro c b d ha hc h
    cases c with
    | nil =>
      simp only [List.nil_append, List.cons_append, List.cons.injEq] at h
      exact absurd (h.1 ▸ List.mem_cons_self _ _) ha
    | cons y ys =>
      simp only [List.cons_append, List.cons.injEq] at h
      obtain ⟨e1, e2⟩ := ih ys b d (fun m => ha (List.mem_cons_of_mem _ m))
        (fun m => hc (List.mem_cons_of_mem _ m)) h.2
      exact ⟨by rw [h.1, e1], e2⟩

theorem sprintfPorts_inj (l r l' r' : Int) (h : sprintfPorts l r = sprintfPorts l' r') :
    l = l' ∧ r = r' := by
  unfold sprintfPorts at h
  have h2 := congrArg String.data h
  simp only at h2
  obtain ⟨e1, e2⟩ := colon_split _ _ _ _ (fmtInt_no_colon l) (fmtInt_no_colon l') h2
  exact ⟨fmtInt_inj _ _ e1, fmtInt_inj _ _ e2⟩

/-! ## The runs of `WaitForForwarding` -/

theorem Inv_step (o : Outcome) (trace : List Label) (s : State) (l : Label) (s' : State)
    (hinv : Inv o trace s) (hstep : (l, s') ∈ taskSteps o s ++ waiterSteps s) :
    Inv o (trace ++ [l]) s' := by
  obtain ⟨task, waiter, rc, del⟩ := s
  obtain ⟨calls, cr, res⟩ := o
  cases task <;> cases waiter <;> cases cr <;> rcases res with (_ | e) | _ <;>
    simp [Inv, taskSteps, waiterSteps, afterCall] at hinv hstep <;>
    (try casesm* _ ∨ _, _ ∧ _) <;> subst_vars <;> simp_all [Inv, readyPrefix] <;>
    exact ⟨_, rfl, rfl, ⟨rfl, rfl⟩, rfl⟩

theorem Run_Inv (lib : Lib) (req : PortForwardAPodRequest) (trace : List Label) (s : State)
    (h : Run lib req trace s) : Inv (PortForwardAPod lib req) trace s := by
  induction h with
  | init => simp [Inv, State.init]
  | step _ hstep ih => exact Inv_step _ _ _ _ _ ih hstep


theorem digitChar_eq (d : Nat) (h : d < 10) : Nat.digitChar d = digitByte d := by
  interval_cases d <;> rfl

theorem toDigitsCore_eq (fuel : Nat) : ∀ (n : Nat) (ds : List Char), n < fuel →
    Nat.toDigitsCore 10 fuel n ds = fmtUint n ds := by
  induction fuel with
  | zero => intro n ds h; omega
  | succ f ih =>
    intro n ds h
    simp only [Nat.toDigitsCore]
    by_cases h0 : n / 10 = 0
    · rw [if_pos h0, fmtUint_lt n ds (by omega)]
      have : n % 10 = n := by omega
      rw [this, digitChar_eq n (by omega)]
    · rw [if_neg h0, fmtUint_ge n ds (by omega), ih _ _ (by omega),
        digitChar_eq (n % 10) (by omega)]

theorem fmtUint_eq_repr (n : Nat) : (⟨fmtUint n []⟩ : String) = Nat.repr n := by
  simp [Nat.repr, Nat.toDigits, toDigitsCore_eq (n + 1) n [] (by omega), List.asString]

theorem fmtInt_nonneg (x : Int) (h : 0 ≤ x) : (⟨fmtInt x⟩ : String) = Nat.repr x.toNat := by
  rw [← fmtUint_eq_repr]
  simp [fmtInt, not_lt.mpr h]

theorem sprintfPorts_eq (l r : Int) (hl : 0 ≤ l) (hr : 0 ≤ r) :
    sprintfPorts l r = Nat.repr l.toNat ++ ":" ++ Nat.repr r.toNat := by
  rw [← fmtInt_nonneg l hl, ← fmtInt_nonneg r hr]
  apply String.ext
  simp [sprintfPorts, String.data_append]

/-! ## The library calls of `PortForwardAPod` -/

theorem PortForwardAPod_cases (lib : Lib) (req : PortForwardAPodRequest) :
    (∃ err, lib.RoundTripperFor req.RestConfig = .error err ∧
      PortForwardAPod lib req = ⟨[.RoundTripperFor req.RestConfig], false, .returns (some err)⟩) ∨
    (∃ t u, lib.RoundTripperFor req.RestConfig = .ok (t, u) ∧
      ((∃ err, lib.New (dialerFor req t u) (portsFor req) = .error err ∧
          PortForwardAPod lib req =
            ⟨[.RoundTripperFor req.RestConfig, .NewDialer (dialerFor req t u),
              .New (dialerFor req t u) (portsFor req)], false, .returns (some err)⟩) ∨
        (∃ fw, lib.New (dialerFor req t u) (portsFor req) = .ok fw ∧
          PortForwardAPod lib req =
            ⟨[.RoundTripperFor req.RestConfig, .NewDialer (dialerFor req t u),
              .New (dialerFor req t u) (portsFor req), .ForwardPorts fw],
              (lib.ForwardPorts fw).closesReady, (lib.ForwardPorts fw).result⟩))) := by
  unfold PortForwardAPod
  cases h1 : lib.RoundTripperFor req.RestConfig with
  | error err => left; exact ⟨err, rfl, rfl⟩
  | ok p =>
    obtain ⟨t, u⟩ := p
    right
    refine ⟨t, u, rfl, ?_⟩
    simp only
    cases h2 : lib.New (dialerFor req t u) (portsFor req) with
    | error err =>
      left
      refine ⟨err, rfl, ?_⟩
      simp only [dialerFor, portsFor] at h2
      rw [h2]
      rfl
    | ok fw =>
      right
      refine ⟨fw, rfl, ?_⟩
      simp only [dialerFor, portsFor] at h2
      rw [h2]
      rfl

/-! ## The dial handle and the forward spec -/

/-- C1: on the host `https://test.example.com` the host of the dial URL that
`PortForwardAPod` builds is `est.example.com`: the character-set trim takes the
first letter of the authority `test.example.com` along with the scheme, so the
dialled host is not the authority. -/
theorem C1_host_loses_leading_letter :
    TrimLeft ("https" ++ "://" ++ "test.example.com") "htps:/" = "est.example.com" ∧
    TrimLeft ("https" ++ "://" ++ "test.example.com") "htps:/" ≠ "test.example.com" ∧
    (dialerFor reqNamed ⟨0⟩ ⟨0⟩).url.Host = "est.example.com" ∧
    Call.NewDialer (dialerFor reqNamed ⟨0⟩ ⟨0⟩) ∈ (PortForwardAPod libForwarding reqNamed).calls := by
  decide

/-- C10: the host derivation `strings.TrimLeft(Host, "htps:/")` removes exactly
the longest prefix made of the characters of the cutset: for `p` made of those
characters only and `a` empty or starting with another character, the derived
host of `p ++ a` is `a`; for every host the result is the host without a prefix
made of those characters, it does not start with one of them, and deriving
again changes nothing.  The host of every dial handle that `PortForwardAPod`
builds is this derived host. -/
theorem C10_trimLeft_strips_cutset (p a host : String)
    (hp : ∀ c ∈ p.data, c ∈ "htps:/".data)
    (ha : ∀ c rest, a.data = c :: rest → c ∉ "htps:/".data) :
    TrimLeft (p ++ a) "htps:/" = a ∧
    (∃ pre : String, (∀ c ∈ pre.data, c ∈ "htps:/".data) ∧
      host = pre ++ TrimLeft host "htps:/") ∧
    (∀ c rest, (TrimLeft host "htps:/").data = c :: rest → c ∉ "htps:/".data) ∧
    TrimLeft (TrimLeft host "htps:/") "htps:/" = TrimLeft host "htps:/" ∧
    (∀ (lib : Lib) (req : PortForwardAPodRequest) (d : Dialer),
      req.RestConfig.Host = host → Call.NewDialer d ∈ (PortForwardAPod lib req).calls →
      d.url.Host = TrimLeft host "htps:/") := by
  have hc : ("htps:/" : String) ≠ "" := by decide
  refine ⟨TrimLeft_append p a _ hc hp ha, ?_, TrimLeft_head host _ hc, ?_, ?_⟩
  · refine ⟨⟨host.data.takeWhile (fun c => "htps:/".data.contains c)⟩, ?_,
      TrimLeft_split host _ hc⟩
    intro c hmem
    have := List.mem_takeWhile_imp hmem
    simpa using this
  · have h := TrimLeft_append "" (TrimLeft host "htps:/") _ hc (by simp)
      (TrimLeft_head host _ hc)
    simpa using h
  · intro lib req d hreq hd
    rcases PortForwardAPod_cases lib req with ⟨e, _, h⟩ | ⟨t, u, _, ⟨e, _, h⟩ | ⟨fw, _, h⟩⟩ <;>
      rw [h] at hd <;> simp at hd <;> subst hd <;> simp [dialerFor, NewDialer, hreq]

/-- C10, on the host `https://10.0.0.1:6443`: the prefix `https://` is made of
characters of the cutset and the authority starts with a digit. -/
theorem C10_trimLeft_strips_cutset_witness :
    TrimLeft ("https://" ++ "10.0.0.1:6443") "htps:/" = "10.0.0.1:6443" :=
  (C10_trimLeft_strips_cutset "https://" "10.0.0.1:6443" "https://10.0.0.1:6443"
    (by decide) (by intro c rest h; cases h; decide)).1

/-- C2: every dial handle that `PortForwardAPod` builds, and every dial handle
that it passes to `portforward.New`, has the method POST and a URL whose path
is `/api/v1/namespaces/` ++ ns ++ `/pods/` ++ pod ++ `/portforward`; a handle
is built whenever `spdy.RoundTripperFor` succeeds. -/
theorem C2_dial_method_and_path (lib : Lib) (req : PortForwardAPodRequest) :
    (∀ d, Call.NewDialer d ∈ (PortForwardAPod lib req).calls →
      d.method = "POST" ∧
      d.url.Path = "/api/v1/namespaces/" ++ req.Pod.ObjectMeta.Namespace ++ "/pods/" ++
        req.Pod.ObjectMeta.Name ++ "/portforward") ∧
    (∀ d ports, Call.New d ports ∈ (PortForwardAPod lib req).calls →
      d.method = "POST" ∧
      d.url.Path = "/api/v1/namespaces/" ++ req.Pod.ObjectMeta.Namespace ++ "/pods/" ++
        req.Pod.ObjectMeta.Name ++ "/portforward") ∧
    (∀ t u, lib.RoundTripperFor req.RestConfig = .ok (t, u) →
      ∃ d, Call.NewDialer d ∈ (PortForwardAPod lib req).calls) := by
  rcases PortForwardAPod_cases lib req with ⟨e, h0, h⟩ | ⟨t, u, h0, ⟨e, _, h⟩ | ⟨fw, _, h⟩⟩ <;>
    rw [h] <;> simp [dialerFor, NewDialer, MethodPost, sprintfPath, h0]

/-- C2, on the request for pod `web-0` of namespace `default`. -/
theorem C2_dial_method_and_path_witness :
    Call.NewDialer (dialerFor reqWeb ⟨0⟩ ⟨0⟩) ∈ (PortForwardAPod libForwarding reqWeb).calls ∧
    (dialerFor reqWeb ⟨0⟩ ⟨0⟩).method = "POST" ∧
    (dialerFor reqWeb ⟨0⟩ ⟨0⟩).url.Path = "/api/v1/namespaces/default/pods/web-0/portforward" :=
  ⟨by decide, (C2_dial_method_and_path libForwarding reqWeb).1 _ (by decide)⟩

/-- C7: `PortForwardAPod` passes to `portforward.New` a list of exactly one
forward spec, the `%d:%d` rendering of the local and the remote port; for
non-negative ports that is decimal(l) ++ `:` ++ decimal(r), and two pairs of
non-negative ports with the same spec are equal. -/
theorem C7_forward_spec (lib : Lib) (req : PortForwardAPodRequest) :
    (∀ d ports, Call.New d ports ∈ (PortForwardAPod lib req).calls →
      ports = [sprintfPorts req.LocalPort req.PodPort]) ∧
    (∀ t u, lib.RoundTripperFor req.RestConfig = .ok (t, u) →
      ∃ d, Call.New d [sprintfPorts req.LocalPort req.PodPort] ∈ (PortForwardAPod lib req).calls) ∧
    (∀ l r : Int, 0 ≤ l → 0 ≤ r →
      sprintfPorts l r = Nat.repr l.toNat ++ ":" ++ Nat.repr r.toNat) ∧
    (∀ l r l' r' : Int, 0 ≤ l → 0 ≤ r → 0 ≤ l' → 0 ≤ r' →
      sprintfPorts l r = sprintfPorts l' r' → l = l' ∧ r = r') := by
  refine ⟨?_, ?_, sprintfPorts_eq, fun l r l' r' _ _ _ _ h => sprintfPorts_inj l r l' r' h⟩
  · rcases PortForwardAPod_cases lib req with ⟨e, h0, h⟩ | ⟨t, u, h0, ⟨e, _, h⟩ | ⟨fw, _, h⟩⟩ <;>
      rw [h] <;> simp [portsFor]
  · rcases PortForwardAPod_cases lib req with ⟨e, h0, h⟩ | ⟨t, u, h0, ⟨e, _, h⟩ | ⟨fw, _, h⟩⟩ <;>
      rw [h] <;> simp [portsFor, h0]

/-- C7, on the request with local port 8080 and remote port 80: the list
passed to `portforward.New` is the single spec `8080:80`. -/
theorem C7_forward_spec_witness :
    Call.New (dialerFor reqWeb ⟨0⟩ ⟨0⟩) ["8080:80"] ∈ (PortForwardAPod libForwarding reqWeb).calls ∧
    ["8080:80"] = [sprintfPorts reqWeb.LocalPort reqWeb.PodPort] :=
  ⟨by simp [PortForwardAPod, libForwarding, dialerFor, reqWeb, sprintfPorts, fmtInt, fmtUint, digitByte],
    (C7_forward_spec libForwarding reqWeb).1 (dialerFor reqWeb ⟨0⟩ ⟨0⟩) ["8080:80"]
      (by simp [PortForwardAPod, libForwarding, dialerFor, reqWeb, sprintfPorts, fmtInt, fmtUint, digitByte])⟩

/-! ## The waiter and the background task -/

theorem run_dial_error :
    Run libDialError reqWeb
      [.ret (some ⟨"error upgrading connection: 403"⟩),
        .recvFailure ⟨"error upgrading connection: 403"⟩,
        .panic "error upgrading connection: 403"]
      ⟨.crashed "error upgrading connection: 403",
        .returned (some ⟨"error upgrading connection: 403"⟩), false,
        [⟨"error upgrading connection: 403"⟩]⟩ :=
  Run.step
    (Run.step
      (Run.step Run.init (by decide) :
        Run libDialError reqWeb [.ret (some ⟨"error upgrading connection: 403"⟩)]
          ⟨.sending ⟨"error upgrading connection: 403"⟩, .selecting, false, []⟩)
      (by decide) :
      Run libDialError reqWeb
        [.ret (some ⟨"error upgrading connection: 403"⟩),
          .recvFailure ⟨"error upgrading connection: 403"⟩]
        ⟨.panicking ⟨"error upgrading connection: 403"⟩,
          .returned (some ⟨"error upgrading connection: 403"⟩), false,
          [⟨"error upgrading connection: 403"⟩]⟩)
    (by decide)

theorem run_to_crash (lib : Lib) (req : PortForwardAPodRequest) (e : Error)
    (h : (PortForwardAPod lib req).result = .returns (some e)) :
    Run lib req
      (readyPrefix (PortForwardAPod lib req) ++ [.ret (some e), .recvFailure e, .panic e.msg])
      ⟨.crashed e.msg, .returned (some e), (PortForwardAPod lib req).closesReady, [e]⟩ := by
  have s1 : Run lib req (readyPrefix (PortForwardAPod lib req) ++ [.ret (some e)])
      ⟨.sending e, .selecting, (PortForwardAPod lib req).closesReady, []⟩ := by
    cases hc : (PortForwardAPod lib req).closesReady with
    | false =>
      have := @Run.step lib req [] State.init (.ret (some e))
        ⟨.sending e, .selecting, false, []⟩ Run.init
        (by simp [steps, taskSteps, afterCall, waiterSteps, State.init, h, hc])
      simpa [readyPrefix, hc] using this
    | true =>
      have r0 := @Run.step lib req [] State.init .closeReady
        ⟨.forwarding, .selecting, true, []⟩ Run.init
        (by simp [steps, taskSteps, afterCall, waiterSteps, State.init, h, hc])
      have := @Run.step lib req _ _ (.ret (some e))
        ⟨.sending e, .selecting, true, []⟩ r0
        (by simp [steps, taskSteps, afterCall, waiterSteps, h, hc])
      simpa [readyPrefix, hc] using this
  have s2 := @Run.step lib req _ _ (.recvFailure e)
    ⟨.panicking e, .returned (some e), (PortForwardAPod lib req).closesReady, [e]⟩ s1
    (by simp [steps, taskSteps, afterCall, waiterSteps])
  have s3 := @Run.step lib req _ _ (.panic e.msg)
    ⟨.crashed e.msg, .returned (some e), (PortForwardAPod lib req).closesReady, [e]⟩ s2
    (by simp [steps, taskSteps, afterCall, waiterSteps])
  simpa using s3

/-- C3: in every run of `WaitForForwarding` the `select` of the caller receives
at most once, and what it receives first decides the result: as long as it has
received nothing the caller has not returned; if it has taken the case of the
ready channel, the ready channel is closed and the caller has returned nil; if
it has received an error `e` from the failure channel, the caller has returned
`e` itself.  So the caller returns nil only when the ready case came first.
Both cases are taken: a caller in its `select` can take the ready case as soon
as the ready channel is closed, and can receive `e` as soon as the goroutine is
at its send of `e`; whenever `PortForwardAPod` returns an error `e` there is a
run in which the caller returns `e`, and whenever it closes the ready channel
there is a run in which the caller returns nil. -/
theorem C3_first_event_decides (lib : Lib) (req : PortForwardAPodRequest) :
    (∀ trace s, Run lib req trace s →
      (observed trace = [] ∧ s.waiter = .selecting) ∨
      (observed trace = [.recvReady] ∧ s.waiter = .returned none ∧ s.readyClosed = true) ∨
      (∃ e, observed trace = [.recvFailure e] ∧ s.waiter = .returned (some e) ∧
        s.delivered = [e])) ∧
    (∀ trace s, Run lib req trace s → s.waiter = .selecting →
      (s.readyClosed = true →
        Run lib req (trace ++ [.recvReady]) { s with waiter := .returned none }) ∧
      (∀ e, s.task = .sending e →
        Run lib req (trace ++ [.recvFailure e])
          { s with task := .panicking e, waiter := .returned (some e),
                   delivered := s.delivered ++ [e] })) ∧
    (∀ e, (PortForwardAPod lib req).result = .returns (some e) →
      ∃ trace s, Run lib req trace s ∧ observed trace = [.recvFailure e] ∧
        s.waiter = .returned (some e) ∧ s.delivered = [e]) ∧
    ((PortForwardAPod lib req).closesReady = true →
      ∃ trace s, Run lib req trace s ∧ observed trace = [.recvReady] ∧
        s.waiter = .returned none ∧ s.readyClosed = true) := by
  refine ⟨?_, ?_, ?_, ?_⟩
  · intro trace s h
    have hinv := Run_Inv lib req trace s h
    generalize PortForwardAPod lib req = o at hinv
    obtain ⟨task, waiter, rc, del⟩ := s
    obtain ⟨calls, cr, res⟩ := o
    cases task <;> cases cr <;> simp [Inv, readyPrefix] at hinv <;>
      (try casesm* _ ∨ _, _ ∧ _, ∃ _, _) <;> subst_vars <;> simp [observed]
  · intro trace s h hw
    have hinv := Run_Inv lib req trace s h
    refine ⟨fun hr => Run.step h ?_, fun e he => Run.step h ?_⟩
    · obtain ⟨task, waiter, rc, del⟩ := s
      simp only at hw hr
      subst hw hr
      cases task <;> simp [Inv] at hinv <;> simp [steps, waiterSteps]
    · obtain ⟨task, waiter, rc, del⟩ := s
      simp only at hw he
      subst hw he
      simp [steps, taskSteps]
  · intro e he
    refine ⟨_, _, run_to_crash lib req e he, ?_, rfl, rfl⟩
    cases hc : (PortForwardAPod lib req).closesReady <;> simp [observed, readyPrefix, hc]
  · intro hc
    have r0 := @Run.step lib req [] State.init .closeReady
      ⟨.forwarding, .selecting, true, []⟩ Run.init
      (by simp [steps, taskSteps, waiterSteps, State.init, hc])
    have r1 := @Run.step lib req _ _ .recvReady
      ⟨.forwarding, .returned none, true, []⟩ r0
      (by simp [steps, taskSteps, waiterSteps, afterCall])
    exact ⟨_, _, r1, by simp [observed], rfl, rfl⟩

/-- C3, on a dial error: the caller receives the error from the failure channel
and returns it; and on a forwarder that becomes ready: the caller takes the
ready case and returns nil. -/
theorem C3_first_event_decides_witness :
    (∃ trace s, Run libDialError reqWeb trace s ∧
      observed trace = [.recvFailure ⟨"error upgrading connection: 403"⟩] ∧
      s.waiter = .returned (some ⟨"error upgrading connection: 403"⟩) ∧
      s.delivered = [⟨"error upgrading connection: 403"⟩]) ∧
    Run libDialError reqWeb
      ([.ret (some ⟨"error upgrading connection: 403"⟩)] ++
        [.recvFailure ⟨"error upgrading connection: 403"⟩])
      ⟨.panicking ⟨"error upgrading connection: 403"⟩,
        .returned (some ⟨"error upgrading connection: 403"⟩), false,
        [⟨"error upgrading connection: 403"⟩]⟩ ∧
    Run libForwarding reqWeb ([.closeReady] ++ [.recvReady])
      ⟨.forwarding, .returned none, true, []⟩ :=
  ⟨(C3_first_event_decides libDialError reqWeb).2.2.1 ⟨"error upgrading connection: 403"⟩
      (by decide),
    ((C3_first_event_decides libDialError reqWeb).2.1
      [.ret (some ⟨"error upgrading connection: 403"⟩)]
      ⟨.sending ⟨"error upgrading connection: 403"⟩, .selecting, false, []⟩
      (Run.step Run.init (by decide)) rfl).2 ⟨"error upgrading connection: 403"⟩ rfl,
    ((C3_first_event_decides libForwarding reqWeb).2.1 [.closeReady]
      ⟨.forwarding, .selecting, true, []⟩ (Run.step Run.init (by decide)) rfl).1 rfl⟩

/-- C4: when `spdy.RoundTripperFor` or `portforward.New` fails with `e`,
`PortForwardAPod` returns `e`, does not call `ForwardPorts` and does not close
the ready channel; in every run of `WaitForForwarding` on that request the
ready channel stays open and the caller, if it has returned, has returned `e`;
and there is a run in which it returns `e`. -/
theorem C4_construction_error (lib : Lib) (req : PortForwardAPodRequest) (e : Error)
    (hfail : lib.RoundTripperFor req.RestConfig = .error e ∨
      ∃ t u, lib.RoundTripperFor req.RestConfig = .ok (t, u) ∧
        lib.New (dialerFor req t u) (portsFor req) = .error e) :
    (PortForwardAPod lib req).result = .returns (some e) ∧
    (∀ fw, Call.ForwardPorts fw ∉ (PortForwardAPod lib req).calls) ∧
    (PortForwardAPod lib req).closesReady = false ∧
    (∀ trace s, Run lib req trace s →
      s.readyClosed = false ∧ ∀ r, s.waiter = .returned r → r = some e) ∧
    (∃ trace s, Run lib req trace s ∧ s.waiter = .returned (some e)) := by
  have ho : (PortForwardAPod lib req).result = .returns (some e) ∧
      (∀ fw, Call.ForwardPorts fw ∉ (PortForwardAPod lib req).calls) ∧
      (PortForwardAPod lib req).closesReady = false := by
    rcases PortForwardAPod_cases lib req with ⟨e', h0, h⟩ | ⟨t, u, h0, ⟨e', h1, h⟩ | ⟨fw, h1, h⟩⟩ <;>
      rcases hfail with hf | ⟨t', u', hf, hf'⟩ <;> rw [h0] at hf <;> cases hf
    · simp [h]
    · rw [h1] at hf'; cases hf'; simp [h]
    · rw [h1] at hf'; cases hf'
  obtain ⟨h1, h2, h3⟩ := ho
  refine ⟨h1, h2, h3, ?_, ?_⟩
  · intro trace s hrun
    have hinv := Run_Inv lib req trace s hrun
    generalize PortForwardAPod lib req = o at hinv h1 h3
    obtain ⟨task, waiter, rc, del⟩ := s
    obtain ⟨calls, cr, res⟩ := o
    simp only at h1 h3
    subst h1 h3
    cases task <;> simp [Inv, readyPrefix] at hinv <;>
      (try casesm* _ ∨ _, _ ∧ _, ∃ _, _) <;> subst_vars <;> simp
  · refine ⟨[.ret (some e), .recvFailure e],
      ⟨.panicking e, .returned (some e), false, [e]⟩, ?_, rfl⟩
    have s1 : Run lib req ([] ++ [.ret (some e)]) ⟨.sending e, .selecting, false, []⟩ :=
      Run.step Run.init (by simp [steps, taskSteps, afterCall, waiterSteps, State.init, h1, h3])
    exact Run.step s1 (by simp [steps, taskSteps, afterCall, waiterSteps])

/-- C4, with a library whose transport construction fails. -/
theorem C4_construction_error_witness :
    (PortForwardAPod libNoTransport reqWeb).result =
      .returns (some ⟨"unable to load TLS material"⟩) ∧
    (PortForwardAPod libNoTransport reqWeb).calls = [.RoundTripperFor reqWeb.RestConfig] ∧
    (∃ trace s, Run libNoTransport reqWeb trace s ∧
      s.waiter = .returned (some ⟨"unable to load TLS material"⟩)) :=
  ⟨(C4_construction_error libNoTransport reqWeb ⟨"unable to load TLS material"⟩
      (Or.inl rfl)).1, by decide,
    (C4_construction_error libNoTransport reqWeb ⟨"unable to load TLS material"⟩
      (Or.inl rfl)).2.2.2.2⟩

theorem run_lost_after_ready :
    Run libLost reqWeb [.closeReady, .recvReady, .ret (some ⟨"lost connection to pod"⟩)]
      ⟨.sending ⟨"lost connection to pod"⟩, .returned none, true, []⟩ :=
  Run.step
    (Run.step
      (Run.step Run.init (by decide) :
        Run libLost reqWeb [.closeReady] ⟨.forwarding, .selecting, true, []⟩)
      (by decide) :
      Run libLost reqWeb [.closeReady, .recvReady] ⟨.forwarding, .returned none, true, []⟩)
    (by decide)

theorem run_lost_before_select :
    Run libLost reqWeb
      [.closeReady, .ret (some ⟨"lost connection to pod"⟩),
        .recvFailure ⟨"lost connection to pod"⟩]
      ⟨.panicking ⟨"lost connection to pod"⟩, .returned (some ⟨"lost connection to pod"⟩),
        true, [⟨"lost connection to pod"⟩]⟩ :=
  Run.step
    (Run.step
      (Run.step Run.init (by decide) :
        Run libLost reqWeb [.closeReady] ⟨.forwarding, .selecting, true, []⟩)
      (by decide) :
      Run libLost reqWeb [.closeReady, .ret (some ⟨"lost connection to pod"⟩)]
        ⟨.sending ⟨"lost connection to pod"⟩, .selecting, true, []⟩)
    (by decide)

/-- C5: on a forwarder that closes the ready channel and later returns an
error, in the run in which the caller has returned on the ready channel before
`PortForwardAPod` returns, the goroutine stays at its send on the failure
channel, which has no buffer and no receiver left: the run has no further step,
the error is not forwarded and there is no panic.  On an error that comes
before the ready channel is closed the same goroutine does forward the error
and then panic. -/
theorem C5_error_after_ready_is_stuck :
    (PortForwardAPod libLost reqWeb).result = .returns (some ⟨"lost connection to pod"⟩) ∧
    Run libLost reqWeb [.closeReady, .recvReady, .ret (some ⟨"lost connection to pod"⟩)]
      ⟨.sending ⟨"lost connection to pod"⟩, .returned none, true, []⟩ ∧
    steps libLost reqWeb ⟨.sending ⟨"lost connection to pod"⟩, .returned none, true, []⟩ = [] ∧
    Label.recvFailure ⟨"lost connection to pod"⟩ ∉
      [Label.closeReady, .recvReady, .ret (some ⟨"lost connection to pod"⟩)] ∧
    Label.panic "lost connection to pod" ∉
      [Label.closeReady, .recvReady, .ret (some ⟨"lost connection to pod"⟩)] ∧
    Run libDialError reqWeb
      [.ret (some ⟨"error upgrading connection: 403"⟩),
        .recvFailure ⟨"error upgrading connection: 403"⟩,
        .panic "error upgrading connection: 403"]
      ⟨.crashed "error upgrading connection: 403",
        .returned (some ⟨"error upgrading connection: 403"⟩), false,
        [⟨"error upgrading connection: 403"⟩]⟩ :=
  ⟨by decide, run_lost_after_ready, by decide, by decide, by decide, run_dial_error⟩

/-- C6, as stated, fails on the run in which the forwarder closes the ready
channel and `PortForwardAPod` returns an error before the caller has reached
its `select`, which then takes the failure case: the ready channel is closed
and an error has been delivered on the failure channel. -/
theorem C6_ready_and_failure_in_one_run :
    Run libLost reqWeb
      [.closeReady, .ret (some ⟨"lost connection to pod"⟩),
        .recvFailure ⟨"lost connection to pod"⟩]
      ⟨.panicking ⟨"lost connection to pod"⟩, .returned (some ⟨"lost connection to pod"⟩),
        true, [⟨"lost connection to pod"⟩]⟩ ∧
    (⟨.panicking ⟨"lost connection to pod"⟩, .returned (some ⟨"lost connection to pod"⟩),
        true, [⟨"lost connection to pod"⟩]⟩ : State).readyClosed = true ∧
    (⟨.panicking ⟨"lost connection to pod"⟩, .returned (some ⟨"lost connection to pod"⟩),
        true, [⟨"lost connection to pod"⟩]⟩ : State).delivered =
      [⟨"lost connection to pod"⟩] :=
  ⟨run_lost_before_select, rfl, rfl⟩

/-- C6, amended: in every run of `WaitForForwarding` the caller sees exactly
one of the two outcomes: at most one error is delivered on the failure channel,
and a delivered error is the one the caller has returned; a caller that has
returned nil has seen the ready channel closed, and no error is delivered.  The
ready channel being closed and an error being delivered exclude each other
unless `PortForwardAPod` closes the ready channel and then returns an error;
and a run that cannot go on has one of the two whenever `PortForwardAPod`
closes the ready channel or returns an error. -/
theorem C6_one_outcome_observed (lib : Lib) (req : PortForwardAPodRequest)
    (trace : List Label) (s : State) (h : Run lib req trace s) :
    s.delivered.length ≤ 1 ∧
    (∀ e, e ∈ s.delivered → s.delivered = [e] ∧ s.waiter = .returned (some e)) ∧
    (∀ e, s.waiter = .returned (some e) → s.delivered = [e]) ∧
    (s.waiter = .returned none → s.readyClosed = true ∧ s.delivered = []) ∧
    (¬((PortForwardAPod lib req).closesReady = true ∧
        ∃ e, (PortForwardAPod lib req).result = .returns (some e)) →
      ¬(s.readyClosed = true ∧ s.delivered ≠ [])) ∧
    (((PortForwardAPod lib req).closesReady = true ∨
        ∃ e, (PortForwardAPod lib req).result = .returns (some e)) →
      steps lib req s = [] → (s.readyClosed = true ∨ s.delivered ≠ [])) := by
  have hinv := Run_Inv lib req trace s h
  unfold steps
  generalize PortForwardAPod lib req = o at hinv
  obtain ⟨task, waiter, rc, del⟩ := s
  obtain ⟨calls, cr, res⟩ := o
  cases task <;> cases cr <;> rcases res with (_ | e') | _ <;>
    simp [Inv, readyPrefix] at hinv <;>
    (try casesm* _ ∨ _, _ ∧ _, ∃ _, _) <;> subst_vars <;>
    simp [taskSteps, waiterSteps, afterCall]

/-- C6, amended, on a dial error: the error is delivered, the ready channel is
still open. -/
theorem C6_one_outcome_observed_witness :
    Run libDialError reqWeb
      [.ret (some ⟨"error upgrading connection: 403"⟩),
        .recvFailure ⟨"error upgrading connection: 403"⟩,
        .panic "error upgrading connection: 403"]
      ⟨.crashed "error upgrading connection: 403",
        .returned (some ⟨"error upgrading connection: 403"⟩), false,
        [⟨"error upgrading connection: 403"⟩]⟩ ∧
    ¬((⟨.crashed "error upgrading connection: 403",
        .returned (some ⟨"error upgrading connection: 403"⟩), false,
        [⟨"error upgrading connection: 403"⟩]⟩ : State).readyClosed = true ∧
      (⟨.crashed "error upgrading connection: 403",
        .returned (some ⟨"error upgrading connection: 403"⟩), false,
        [⟨"error upgrading connection: 403"⟩]⟩ : State).delivered ≠ []) :=
  ⟨run_dial_error,
    (C6_one_outcome_observed libDialError reqWeb _ _ run_dial_error).2.2.2.2.1
      (fun h => absurd h.1 (by decide))⟩

/-! ## Validation and the stop channel -/

/-- C8, as stated, fails on a request whose namespace and pod name are empty:
`PortForwardAPod` builds the dial handle, with the path
`/api/v1/namespaces//pods//portforward`, runs the forwarder and returns nil;
`NewRequest` builds that request without an error. -/
theorem C8_empty_names_are_dialled :
    reqUnnamed.Pod.ObjectMeta.Namespace = "" ∧ reqUnnamed.Pod.ObjectMeta.Name = "" ∧
    (PortForwardAPod libStopped reqUnnamed).result = .returns none ∧
    Call.NewDialer (dialerFor reqUnnamed ⟨0⟩ ⟨0⟩) ∈ (PortForwardAPod libStopped reqUnnamed).calls ∧
    Call.ForwardPorts ⟨0⟩ ∈ (PortForwardAPod libStopped reqUnnamed).calls ∧
    (dialerFor reqUnnamed ⟨0⟩ ⟨0⟩).url.Path = "/api/v1/namespaces//pods//portforward" ∧
    NewRequest configOk "" "" "" "" =
      .ok { reqUnnamed with LocalPort := 0, PodPort := 0 } := by
  refine ⟨rfl, rfl, by decide, by decide, by decide, by decide, rfl⟩

/-- C8, amended: `PortForwardAPod` does not look at the namespace and the pod
name: for every request, with empty names too, it builds the dial handle as
soon as `spdy.RoundTripperFor` succeeds, an empty name giving an empty segment
of the path, and an error that it returns is the error of
`spdy.RoundTripperFor`, of `portforward.New` or of `ForwardPorts`; `NewRequest`
fails only when `buildConfigFromFlags` does. -/
theorem C8_names_not_validated (lib : Lib) (req : PortForwardAPodRequest) :
    (∀ t u, lib.RoundTripperFor req.RestConfig = .ok (t, u) →
      Call.NewDialer (dialerFor req t u) ∈ (PortForwardAPod lib req).calls ∧
      (dialerFor req t u).url.Path = "/api/v1/namespaces/" ++ req.Pod.ObjectMeta.Namespace ++
        "/pods/" ++ req.Pod.ObjectMeta.Name ++ "/portforward") ∧
    (∀ e, (PortForwardAPod lib req).result = .returns (some e) →
      lib.RoundTripperFor req.RestConfig = .error e ∨
      (∃ t u, lib.New (dialerFor req t u) (portsFor req) = .error e) ∨
      (∃ fw, (lib.ForwardPorts fw).result = .returns (some e))) ∧
    (∀ (build : String → String → Except Error RestConfig)
        (kubeconfig context ns podName : String) (config : RestConfig),
      build context kubeconfig = .ok config →
      ∃ r, NewRequest build kubeconfig context ns podName = .ok r ∧
        r.Pod.ObjectMeta.Namespace = ns ∧ r.Pod.ObjectMeta.Name = podName) := by
  refine ⟨?_, ?_, ?_⟩
  · intro t u h0
    rcases PortForwardAPod_cases lib req with ⟨e, h0', h⟩ | ⟨t', u', h0', ⟨e, _, h⟩ | ⟨fw, _, h⟩⟩ <;>
      rw [h0] at h0' <;> cases h0' <;> rw [h] <;> simp [dialerFor, NewDialer, sprintfPath]
  · intro e he
    rcases PortForwardAPod_cases lib req with ⟨e', h0, h⟩ | ⟨t, u, h0, ⟨e', h1, h⟩ | ⟨fw, h1, h⟩⟩ <;>
      rw [h] at he
    · left
      simp only [FwdResult.returns.injEq, Option.some.injEq] at he
      rw [← he]; exact h0
    · right; left
      simp only [FwdResult.returns.injEq, Option.some.injEq] at he
      exact ⟨t, u, by rw [← he]; exact h1⟩
    · right; right
      exact ⟨fw, he⟩
  · intro build kubeconfig context ns podName config hb
    simp [NewRequest, hb]

/-- C8, amended, on the request with empty names. -/
theorem C8_names_not_validated_witness :
    Call.NewDialer (dialerFor reqUnnamed ⟨0⟩ ⟨0⟩) ∈ (PortForwardAPod libStopped reqUnnamed).calls ∧
    (dialerFor reqUnnamed ⟨0⟩ ⟨0⟩).url.Path =
      "/api/v1/namespaces/" ++ "" ++ "/pods/" ++ "" ++ "/portforward" :=
  (C8_names_not_validated libStopped reqUnnamed).1 ⟨0⟩ ⟨0⟩ rfl

/-- C9: the stop channel of a request built by `NewRequest` cannot be set at
all: the request holds it through the receive-only field `StopCh`, on which the
compiler accepts neither a send nor a close, and `NewRequest` keeps no other
reference to it; the channel is open and empty, so a receive on it blocks.  The
ready channel of the same request, held through a `chan struct{}` field, can be
closed. -/
theorem C9_stop_channel_cannot_be_set :
    ∃ r, NewRequest configOk "" "" "default" "web-0" = .ok r ∧
      r.StopCh = ⟨makeChan 1⟩ ∧
      r.StopCh.send = none ∧ r.StopCh.close = none ∧ r.StopCh.recv = .blocks ∧
      r.ReadyCh.close = some (.done ⟨0, 0, true⟩) :=
  ⟨_, rfl, rfl, rfl, rfl, by decide, by decide⟩

end KubePortForward
